import Mathlib

/-!
Verification development for `2-sending-a-packet-from-nic/main.cpp`,
a single-port DPDK traffic generator.  The program builds a fixed
Ethernet/IPv4/UDP frame in a pooled buffer, transmits it, and loops
until a signal sets the exit flag.

The embedding is byte-level for the packet builder (a little-endian
host is assumed, as in the DPDK build the source targets): each
header struct is a record whose 16-bit fields hold the host-order
value actually stored by the assignment, and a serializer lays the
record out in memory order.  `rte_cpu_to_be_16` is the byte swap.
The main loop, buffer pool accounting and transmit path are embedded
as a state machine over `LoopState` that also emits a trace of
atomic actions, so that ordering claims (cancellation observed only
at iteration boundaries, no release after a successful transmit)
are statable.
-/

set_option maxRecDepth 40000

/-- Byte swap of a 16-bit value, `rte_cpu_to_be_16` on a little-endian host. -/
def rte_cpu_to_be_16 (x : Nat) : Nat := (x % 256) * 256 + (x / 256) % 256

/-- Memory layout (little-endian) of a 16-bit field holding host-order value `x`. -/
def le16_bytes (x : Nat) : List Nat := [x % 256, (x / 256) % 256]

/-- Big-endian 16-bit value found at offset `k` of a byte sequence:
the wire-order reading of a header field. -/
def be16_at (bs : List Nat) (k : Nat) : Nat := 256 * bs.getD k 0 + bs.getD (k + 1) 0

/-- `struct rte_ether_hdr`: 6-byte destination MAC, 6-byte source MAC,
16-bit ethertype. -/
structure rte_ether_hdr where
  dst_addr : List Nat
  src_addr : List Nat
  ether_type : Nat
deriving DecidableEq

/-- Memory layout of `rte_ether_hdr` (14 bytes). -/
def ether_hdr_bytes (h : rte_ether_hdr) : List Nat :=
  h.dst_addr ++ h.src_addr ++ le16_bytes h.ether_type

/-- `RTE_ETHER_TYPE_IPV4`. -/
def RTE_ETHER_TYPE_IPV4 : Nat := 0x0800

/-- `set_eth_hdr`: ethertype := IPv4, source MAC 12:45:AB:CD:78:21,
destination MAC DE:AD:BE:EF:AB:12 (all constants from the source). -/
def set_eth_hdr (eth_hdr : rte_ether_hdr) : rte_ether_hdr :=
  { eth_hdr with
    ether_type := rte_cpu_to_be_16 RTE_ETHER_TYPE_IPV4
    src_addr := [0x12, 0x45, 0xAB, 0xCD, 0x78, 0x21]
    dst_addr := [0xDE, 0xAD, 0xBE, 0xEF, 0xAB, 0x12] }

/-- `struct rte_ipv4_hdr`.  `version`/`ihl` are the two nibbles of byte 0
(version in the high nibble on a little-endian host); every 16-bit field
holds the host-order value stored by the source; the two addresses are
kept as the 4 bytes `memcpy` writes. -/
structure rte_ipv4_hdr where
  version : Nat
  ihl : Nat
  type_of_service : Nat
  total_length : Nat
  packet_id : Nat
  fragment_offset : Nat
  time_to_live : Nat
  next_proto_id : Nat
  hdr_checksum : Nat
  src_addr : List Nat
  dst_addr : List Nat
deriving DecidableEq

/-- Memory layout of `rte_ipv4_hdr` (20 bytes). -/
def ipv4_hdr_bytes (h : rte_ipv4_hdr) : List Nat :=
  [h.version * 16 + h.ihl, h.type_of_service] ++
  le16_bytes h.total_length ++
  le16_bytes h.packet_id ++
  le16_bytes h.fragment_offset ++
  [h.time_to_live, h.next_proto_id] ++
  le16_bytes h.hdr_checksum ++
  h.src_addr ++ h.dst_addr

/-- The carry fold of `__rte_raw_cksum_reduce`: fold a 32-bit sum back
into 16 bits, adding the end-around carries. -/
def raw_cksum_reduce (sum : Nat) : Nat :=
  let s1 := sum / 65536 + sum % 65536
  s1 / 65536 + s1 % 65536

/-- 16-bit words of a byte sequence in memory order on a little-endian
host, as `__rte_raw_cksum` reads them. -/
def le16_words : List Nat → List Nat
  | b0 :: b1 :: rest => (b0 + 256 * b1) :: le16_words rest
  | [b0] => [b0]
  | [] => []

/-- `rte_raw_cksum`: one's-complement sum (with end-around carry) of the
16-bit memory words of a byte sequence. -/
def rte_raw_cksum (bs : List Nat) : Nat :=
  raw_cksum_reduce ((le16_words bs).foldl (· + ·) 0)

/-- `rte_ipv4_cksum`: the one's complement (`(uint16_t)~cksum`) of the raw
checksum of the 20-byte header, as a host-order value to be stored into
`hdr_checksum`. -/
def rte_ipv4_cksum (ipv4_hdr : rte_ipv4_hdr) : Nat :=
  65535 - rte_raw_cksum (ipv4_hdr_bytes ipv4_hdr)

/-- `set_ipv4_hdr`: version 4, ihl 5, ToS 0, total length 200 (byte-swapped
to wire order), id 0, fragment-offset field `0x0040` stored as-is (wire
value `0x4000`: don't-fragment, offset 0), TTL 64, protocol 17, source
1.2.3.4, destination 4.3.2.1; then the checksum field is zeroed and,
last of all writes, set to `rte_ipv4_cksum` of the header. -/
def set_ipv4_hdr (ipv4_hdr : rte_ipv4_hdr) : rte_ipv4_hdr :=
  let h : rte_ipv4_hdr :=
    { ipv4_hdr with
      version := 4
      ihl := 5
      type_of_service := 0
      total_length := rte_cpu_to_be_16 200
      packet_id := 0
      fragment_offset := 0x0040
      time_to_live := 64
      next_proto_id := 17
      src_addr := [1, 2, 3, 4]
      dst_addr := [4, 3, 2, 1]
      hdr_checksum := 0 }
  { h with hdr_checksum := rte_ipv4_cksum h }

/-- `struct rte_udp_hdr`: source port, destination port, datagram length,
checksum, each a 16-bit field holding its host-order stored value. -/
structure rte_udp_hdr where
  src_port : Nat
  dst_port : Nat
  dgram_len : Nat
  dgram_cksum : Nat
deriving DecidableEq

/-- Memory layout of `rte_udp_hdr` (8 bytes). -/
def udp_hdr_bytes (u : rte_udp_hdr) : List Nat :=
  le16_bytes u.src_port ++ le16_bytes u.dst_port ++
  le16_bytes u.dgram_len ++ le16_bytes u.dgram_cksum

/-- `set_udp_hdr`: destination port 5000, source port 10000, datagram
length 180 (each byte-swapped to wire order), checksum 0. -/
def set_udp_hdr (udp_hdr : rte_udp_hdr) : rte_udp_hdr :=
  { udp_hdr with
    dst_port := rte_cpu_to_be_16 5000
    src_port := rte_cpu_to_be_16 10000
    dgram_len := rte_cpu_to_be_16 180
    dgram_cksum := 0 }

/-- The `sample_data` C array: the sample string plus its NUL terminator. -/
def sample_data : List Nat :=
  (("This is a sample data generated by a DPDK application ...").toList.map
    Char.toNat) ++ [0]

/-- `insert_data_udp`, payload part: `memset(payload, 0, 172)` then
`memcpy(payload, sample_data, sizeof(sample_data))`, i.e. the sample
bytes followed by zeros up to 172 bytes. -/
def insert_data_udp_payload : List Nat :=
  sample_data ++ List.replicate (172 - sample_data.length) 0

/-- `sizeof(rte_ether_hdr)`. -/
def sizeof_rte_ether_hdr : Nat := 14

/-- `sizeof(rte_ipv4_hdr)`. -/
def sizeof_rte_ipv4_hdr : Nat := 20

/-- `sizeof(rte_udp_hdr)`. -/
def sizeof_rte_udp_hdr : Nat := 8

/-- The frame length `insert_data_udp` stores into both `data_len` and
`pkt_len`: Ethernet + IPv4 + UDP header sizes + 172 payload bytes. -/
def packet_data_len : Nat :=
  sizeof_rte_ether_hdr + sizeof_rte_ipv4_hdr + sizeof_rte_udp_hdr + 172

/-- One loop iteration's frame build: Ethernet header at offset 0, IPv4
header after it, UDP header after that, then the payload — exactly the
four `set_*`/`insert_*` calls of the main loop on a fresh buffer. -/
def build_frame (e : rte_ether_hdr) (i : rte_ipv4_hdr) (u : rte_udp_hdr) :
    List Nat :=
  ether_hdr_bytes (set_eth_hdr e) ++ ipv4_hdr_bytes (set_ipv4_hdr i) ++
  udp_hdr_bytes (set_udp_hdr u) ++ insert_data_udp_payload

/-- Observable state of the main loop: free buffers in the mempool,
buffers handed to the device by a successful transmit, and the
`transmitted_packet_count` counter. -/
structure LoopState where
  pool_free : Nat
  device_owned : Nat
  transmitted_packet_count : Nat
deriving DecidableEq

/-- Atomic actions of one pass of the main loop, in source order, used
to state ordering properties of the loop. -/
inductive LoopAction
  | check_exit_flag
  | report_alloc_failure
  | sleep_backoff
  | build_eth
  | build_ipv4
  | build_udp
  | insert_payload
  | tx_attempt
  | free_buffer
  | count_increment
  | sleep_pacing
deriving DecidableEq

/-- Environment outcome of one loop iteration: `rte_mempool_get` failed,
or it succeeded and `rte_eth_tx_burst` accepted `accepted` of the one
submitted buffer (0 or 1). -/
inductive IterEvent
  | allocFail
  | txBurst (accepted : Nat)
deriving DecidableEq

/-- `send_packet`: submit the buffer; if `rte_eth_tx_burst` accepted 0
packets, log and `rte_pktmbuf_free` the buffer (back to the pool);
otherwise add the accepted count to `transmitted_packet_count` and the
device keeps the buffer.  Also returns the trace of actions taken. -/
def send_packet (tx_packets : Nat) (s : LoopState) : LoopState × List LoopAction :=
  if tx_packets = 0 then
    ({ s with pool_free := s.pool_free + 1 },
     [LoopAction.tx_attempt, LoopAction.free_buffer])
  else
    ({ s with
        transmitted_packet_count := s.transmitted_packet_count + tx_packets,
        device_owned := s.device_owned + 1 },
     [LoopAction.tx_attempt, LoopAction.count_increment])

/-- One execution of the `while` body.  On allocation failure: log and
sleep 100 ms, no buffer touched.  On success: take the buffer from the
pool, build the four layers in order, `send_packet`, then the 200 ms
pacing sleep.  The exit flag is not consulted anywhere in the body. -/
def loop_iteration (e : IterEvent) (s : LoopState) : LoopState × List LoopAction :=
  match e with
  | .allocFail => (s, [LoopAction.report_alloc_failure, LoopAction.sleep_backoff])
  | .txBurst n =>
      let s1 := { s with pool_free := s.pool_free - 1 }
      let r := send_packet n s1
      (r.1,
       [LoopAction.build_eth, LoopAction.build_ipv4, LoopAction.build_udp,
        LoopAction.insert_payload] ++ r.2 ++ [LoopAction.sleep_pacing])

/-- `while (!exit_indicator) { ... }`: the flag is read once before each
iteration; the event list is the run's iteration outcomes, and the run
ends at the first read that observes the flag set. -/
def run_loop : List IterEvent → LoopState → LoopState × List LoopAction
  | [], s => (s, [LoopAction.check_exit_flag])
  | e :: es, s =>
      let r := loop_iteration e s
      let r2 := run_loop es r.1
      (r2.1, LoopAction.check_exit_flag :: r.2 ++ r2.2)

/-- `RTE_MAX_ETHPORTS` (default DPDK configuration). -/
def RTE_MAX_ETHPORTS : Nat := 32

/-- The `RTE_ETH_FOREACH_DEV` discovery loop: counts the available
devices, and bails out (diagnostic, `rte_eal_cleanup`, `exit(1)`) as
soon as the running count reaches `RTE_MAX_ETHPORTS`.  Returns the
final count and whether the overflow exit was taken. -/
def detect_ports_loop : Nat → Nat → Nat × Bool
  | 0, count => (count, false)
  | n + 1, count =>
      let count1 := count + 1
      if RTE_MAX_ETHPORTS ≤ count1 then (count1, true)
      else detect_ports_loop n count1

/-- Observable result of a whole program run: the process exit code, the
final `transmitted_packet_count`, and whether `rte_eal_cleanup` ran. -/
structure ProgramResult where
  exit_code : Nat
  transmitted_packet_count : Nat
  eal_cleaned_up : Bool
deriving DecidableEq

/-- `main`, abstracted over its environment: whether `rte_eal_init`
succeeds, how many Ethernet devices exist, the per-iteration outcomes
until the signal flag is observed, and the mempool's initial free-buffer
count.  EAL-init failure exits 1 with no cleanup; discovery overflow and
zero detected ports clean up and exit 1; otherwise the loop runs and the
program cleans up and returns 0. -/
def main_run (eal_init_ok : Bool) (num_devices : Nat) (es : List IterEvent)
    (pool : Nat) : ProgramResult :=
  if eal_init_ok = false then
    { exit_code := 1, transmitted_packet_count := 0, eal_cleaned_up := false }
  else
    let d := detect_ports_loop num_devices 0
    if d.2 then
      { exit_code := 1, transmitted_packet_count := 0, eal_cleaned_up := true }
    else if d.1 = 0 then
      { exit_code := 1, transmitted_packet_count := 0, eal_cleaned_up := true }
    else
      let r := run_loop es { pool_free := pool, device_owned := 0,
                             transmitted_packet_count := 0 }
      { exit_code := 0,
        transmitted_packet_count := r.1.transmitted_packet_count,
        eal_cleaned_up := true }

/-- Spec-side definition (for the refinement part of the checksum claim):
the 16-bit words of a header read in network (big-endian) order. -/
def be16_words : List Nat → List Nat
  | b0 :: b1 :: rest => (256 * b0 + b1) :: be16_words rest
  | [b0] => [256 * b0]
  | [] => []

/-- Spec-side definition: the standard one's-complement 16-bit internet
checksum of a byte sequence — complement of the end-around-carry sum of
its big-endian 16-bit words. -/
def internet_checksum (bs : List Nat) : Nat :=
  65535 - raw_cksum_reduce ((be16_words bs).foldl (· + ·) 0)

/-- An arbitrary (zeroed) initial `rte_ether_hdr`, standing for the fresh
buffer's bytes before the build. -/
def ether_hdr_zero : rte_ether_hdr := ⟨[], [], 0⟩

/-- An arbitrary (zeroed) initial `rte_ipv4_hdr`. -/
def ipv4_hdr_zero : rte_ipv4_hdr := ⟨0, 0, 0, 0, 0, 0, 0, 0, 0, [], []⟩

/-- An arbitrary (zeroed) initial `rte_udp_hdr`. -/
def udp_hdr_zero : rte_udp_hdr := ⟨0, 0, 0, 0⟩

/-- `set_eth_hdr` overwrites every field, so its result does not depend
on the buffer's prior contents. -/
theorem set_eth_hdr_const (e : rte_ether_hdr) :
    set_eth_hdr e = set_eth_hdr ether_hdr_zero := rfl

/-- `set_ipv4_hdr` overwrites every field, so its result does not depend
on the buffer's prior contents. -/
theorem set_ipv4_hdr_const (i : rte_ipv4_hdr) :
    set_ipv4_hdr i = set_ipv4_hdr ipv4_hdr_zero := rfl

/-- `set_udp_hdr` overwrites every field, so its result does not depend
on the buffer's prior contents. -/
theorem set_udp_hdr_const (u : rte_udp_hdr) :
    set_udp_hdr u = set_udp_hdr udp_hdr_zero := rfl

/-- The built frame does not depend on the buffer's prior contents. -/
theorem build_frame_const (e : rte_ether_hdr) (i : rte_ipv4_hdr)
    (u : rte_udp_hdr) :
    build_frame e i u = build_frame ether_hdr_zero ipv4_hdr_zero udp_hdr_zero :=
  rfl

/-- Claim C2: for every constructed frame, the IPv4 total-length field
equals the byte count of IPv4 header + UDP header + payload, i.e.
20 + 8 + 172 = 200, and it is stored in big-endian byte order. -/
theorem ipv4_total_length_correct (i : rte_ipv4_hdr) :
    be16_at (ipv4_hdr_bytes (set_ipv4_hdr i)) 2 =
      sizeof_rte_ipv4_hdr + sizeof_rte_udp_hdr + insert_data_udp_payload.length ∧
    be16_at (ipv4_hdr_bytes (set_ipv4_hdr i)) 2 = 200 ∧
    (ipv4_hdr_bytes (set_ipv4_hdr i)).getD 2 0 = 0 ∧
    (ipv4_hdr_bytes (set_ipv4_hdr i)).getD 3 0 = 200 := by
  rw [set_ipv4_hdr_const i]; decide

/-- Claim C3: `set_ipv4_hdr` stores as checksum exactly the standard
one's-complement 16-bit checksum of the finished 20-byte header with the
checksum field treated as zero: recomputing that checksum over the
stored header with the checksum field zeroed reproduces the stored
value (both as the struct field and as the big-endian wire value), and
validating the full header, checksum field included, yields zero. -/
theorem ipv4_checksum_correct (i : rte_ipv4_hdr) :
    (set_ipv4_hdr i).hdr_checksum =
      rte_ipv4_cksum { set_ipv4_hdr i with hdr_checksum := 0 } ∧
    be16_at (ipv4_hdr_bytes (set_ipv4_hdr i)) 10 =
      internet_checksum (ipv4_hdr_bytes { set_ipv4_hdr i with hdr_checksum := 0 }) ∧
    internet_checksum (ipv4_hdr_bytes (set_ipv4_hdr i)) = 0 ∧
    65535 - rte_raw_cksum (ipv4_hdr_bytes (set_ipv4_hdr i)) = 0 := by
  rw [set_ipv4_hdr_const i]; decide

/-- Claim C4: after the four build steps the buffer's frame length is the
sum of all header and payload sizes, 14 + 20 + 8 + 172 = 214, and this
sum is consistent with the IPv4 total-length field (214 − 14 = 200) and
the UDP datagram-length field (214 − 14 − 20 = 180). -/
theorem frame_length_consistent (e : rte_ether_hdr) (i : rte_ipv4_hdr)
    (u : rte_udp_hdr) :
    (build_frame e i u).length = packet_data_len ∧
    packet_data_len = 214 ∧
    be16_at (build_frame e i u) 16 = packet_data_len - sizeof_rte_ether_hdr ∧
    be16_at (build_frame e i u) 38 =
      packet_data_len - (sizeof_rte_ether_hdr + sizeof_rte_ipv4_hdr) ∧
    be16_at (build_frame e i u) 16 = 200 ∧
    be16_at (build_frame e i u) 38 = 180 := by
  rw [build_frame_const e i u]; decide

/-- Claim C5: `set_udp_hdr` sets source port 10000 and destination port
5000 (big-endian on the wire), sets the datagram length to the UDP
header + payload byte count 8 + 172 = 180 (big-endian), and leaves the
UDP checksum field zero — no checksum is computed. -/
theorem udp_header_fields_correct (u : rte_udp_hdr) :
    be16_at (udp_hdr_bytes (set_udp_hdr u)) 0 = 10000 ∧
    be16_at (udp_hdr_bytes (set_udp_hdr u)) 2 = 5000 ∧
    be16_at (udp_hdr_bytes (set_udp_hdr u)) 4 = sizeof_rte_udp_hdr + 172 ∧
    be16_at (udp_hdr_bytes (set_udp_hdr u)) 4 = 180 ∧
    (set_udp_hdr u).dgram_cksum = 0 ∧
    be16_at (udp_hdr_bytes (set_udp_hdr u)) 6 = 0 := by
  rw [set_udp_hdr_const u]; decide

/-- Claim C7: `set_ipv4_hdr` sets the identification field to 0, and the
flags/fragment-offset field it writes has fragment offset 0 (low 13
bits of the wire value) and the more-fragments flag clear (bit 13), so
the frame is marked non-fragmented. -/
theorem ipv4_id_and_fragment_nonfragmented (i : rte_ipv4_hdr) :
    (set_ipv4_hdr i).packet_id = 0 ∧
    be16_at (ipv4_hdr_bytes (set_ipv4_hdr i)) 4 = 0 ∧
    be16_at (ipv4_hdr_bytes (set_ipv4_hdr i)) 6 % 8192 = 0 ∧
    be16_at (ipv4_hdr_bytes (set_ipv4_hdr i)) 6 / 8192 % 2 = 0 := by
  rw [set_ipv4_hdr_const i]; decide

/-- Claim C10: `set_ipv4_hdr` sets the time-to-live field to the
constant 64. -/
theorem ipv4_ttl_is_64 (i : rte_ipv4_hdr) :
    (set_ipv4_hdr i).time_to_live = 64 ∧
    (ipv4_hdr_bytes (set_ipv4_hdr i)).getD 8 0 = 64 := by
  rw [set_ipv4_hdr_const i]; decide

/-- Claim C1: `send_packet` reconciles buffer ownership by outcome.  If
the device accepts the buffer (burst count 1), the counter increments by
exactly one, the pool is untouched and the buffer is never released; if
the device accepts zero buffers, the buffer is released back to the pool
exactly once and the counter is unchanged — in the whole iteration as
well, so no buffer is leaked or double-released. -/
theorem send_packet_ownership_reconciliation (s : LoopState) :
    ((send_packet 1 s).1.transmitted_packet_count =
        s.transmitted_packet_count + 1 ∧
      (send_packet 1 s).1.pool_free = s.pool_free ∧
      (send_packet 1 s).2.count LoopAction.free_buffer = 0 ∧
      (loop_iteration (IterEvent.txBurst 1) s).2.count LoopAction.free_buffer
        = 0) ∧
    ((send_packet 0 s).1.pool_free = s.pool_free + 1 ∧
      (send_packet 0 s).1.transmitted_packet_count =
        s.transmitted_packet_count ∧
      (send_packet 0 s).2.count LoopAction.free_buffer = 1 ∧
      (loop_iteration (IterEvent.txBurst 0) s).2.count LoopAction.free_buffer
        = 1) :=
  ⟨⟨rfl, rfl, rfl, rfl⟩, ⟨rfl, rfl, rfl, rfl⟩⟩

/-- Claim C6: an `Exhausted` iteration only reports and sleeps, and any
number of consecutive failed acquisitions leaves the whole loop state —
in particular the pool's free-buffer count — unchanged, with no build,
no transmit attempt and no release in the trace. -/
theorem alloc_failure_preserves_pool (n : Nat) (s : LoopState) :
    (run_loop (List.replicate n IterEvent.allocFail) s).1 = s ∧
    (run_loop (List.replicate n IterEvent.allocFail) s).1.pool_free =
      s.pool_free ∧
    (run_loop (List.replicate n IterEvent.allocFail) s).2.count
      LoopAction.build_eth = 0 ∧
    (run_loop (List.replicate n IterEvent.allocFail) s).2.count
      LoopAction.tx_attempt = 0 ∧
    (run_loop (List.replicate n IterEvent.allocFail) s).2.count
      LoopAction.free_buffer = 0 ∧
    (loop_iteration IterEvent.allocFail s).2 =
      [LoopAction.report_alloc_failure, LoopAction.sleep_backoff] := by
  have key : ∀ m : Nat,
      (run_loop (List.replicate m IterEvent.allocFail) s).1 = s ∧
      (run_loop (List.replicate m IterEvent.allocFail) s).2.count
        LoopAction.build_eth = 0 ∧
      (run_loop (List.replicate m IterEvent.allocFail) s).2.count
        LoopAction.tx_attempt = 0 ∧
      (run_loop (List.replicate m IterEvent.allocFail) s).2.count
        LoopAction.free_buffer = 0 := by
    intro m
    induction m with
    | zero => exact ⟨rfl, rfl, rfl, rfl⟩
    | succ k ih =>
        simpa [List.replicate_succ, run_loop, loop_iteration,
          List.count_cons, List.count_append] using ih
  exact ⟨(key n).1, by rw [(key n).1], (key n).2.1, (key n).2.2.1,
    (key n).2.2.2, rfl⟩

/-- Claim C9: the exit flag is read exactly once per loop pass, at the
iteration boundary (the `while` condition): a run over `n` iterations
reads it `n + 1` times, no iteration body ever reads it, and an
iteration that acquired a buffer always performs the full sequence —
four build steps, the transmit attempt, the outcome's bookkeeping and
the pacing sleep — before the next read can stop the loop. -/
theorem cancellation_checked_at_boundaries (es : List IterEvent)
    (s s2 : LoopState) (e : IterEvent) (n : Nat) :
    (run_loop es s).2.count LoopAction.check_exit_flag = es.length + 1 ∧
    (loop_iteration e s2).2.count LoopAction.check_exit_flag = 0 ∧
    (loop_iteration (IterEvent.txBurst n) s2).2 =
      [LoopAction.build_eth, LoopAction.build_ipv4, LoopAction.build_udp,
        LoopAction.insert_payload, LoopAction.tx_attempt] ++
      (if n = 0 then [LoopAction.free_buffer]
        else [LoopAction.count_increment]) ++
      [LoopAction.sleep_pacing] := by
  have hbody : ∀ (e' : IterEvent) (t : LoopState),
      (loop_iteration e' t).2.count LoopAction.check_exit_flag = 0 := by
    intro e' t
    cases e' with
    | allocFail => rfl
    | txBurst m =>
        by_cases hm : m = 0 <;>
          simp [loop_iteration, send_packet, hm, List.count_cons,
            List.count_append]
  refine ⟨?_, hbody e s2, ?_⟩
  · induction es generalizing s with
    | nil => rfl
    | cons e' es' ih =>
        simp [run_loop, List.count_cons, List.count_append, hbody,
          ih (loop_iteration e' s).1]
  · by_cases hn : n = 0 <;> simp [loop_iteration, send_packet, hn]

/-- The discovery loop overflows exactly when the running count would
reach `RTE_MAX_ETHPORTS`, and otherwise counts every device. -/
theorem detect_ports_loop_spec (n : Nat) : ∀ c : Nat,
    c < RTE_MAX_ETHPORTS →
    (detect_ports_loop n c).2 = decide (RTE_MAX_ETHPORTS ≤ c + n) ∧
    ((detect_ports_loop n c).2 = false →
      (detect_ports_loop n c).1 = c + n) := by
  induction n with
  | zero =>
      intro c hc
      constructor
      · simp [detect_ports_loop]
        omega
      · intro _
        simp [detect_ports_loop]
  | succ k ih =>
      intro c hc
      by_cases h : RTE_MAX_ETHPORTS ≤ c + 1
      · constructor
        · simp [detect_ports_loop, h]
          omega
        · intro hfalse
          simp [detect_ports_loop, h] at hfalse
      · have hlt : c + 1 < RTE_MAX_ETHPORTS := by omega
        have hk := ih (c + 1) hlt
        have heq : c + 1 + k = c + (k + 1) := by omega
        constructor
        · simp [detect_ports_loop, h]
          rw [hk.1, heq]
        · intro hfalse
          simp [detect_ports_loop, h] at hfalse ⊢
          rw [hk.2 hfalse, heq]

/-- Claim C8: the process exit code is 0 exactly on clean shutdown via
the cancellation signal (EAL init succeeded and between 1 and
`RTE_MAX_ETHPORTS − 1` devices were discovered); EAL-init failure exits
1 without cleanup; zero discovered interfaces, or a device count
reaching the fixed capacity, exits 1 after releasing the runtime (EAL
cleaned up), with zero frames transmitted and a zero counter. -/
theorem exit_code_semantics (ok : Bool) (nd : Nat) (es : List IterEvent)
    (pool : Nat) :
    ((main_run ok nd es pool).exit_code = 0 ↔
      ok = true ∧ 1 ≤ nd ∧ nd < RTE_MAX_ETHPORTS) ∧
    (ok = false → main_run ok nd es pool =
      { exit_code := 1, transmitted_packet_count := 0,
        eal_cleaned_up := false }) ∧
    (ok = true → nd = 0 → main_run ok nd es pool =
      { exit_code := 1, transmitted_packet_count := 0,
        eal_cleaned_up := true }) ∧
    (ok = true → RTE_MAX_ETHPORTS ≤ nd → main_run ok nd es pool =
      { exit_code := 1, transmitted_packet_count := 0,
        eal_cleaned_up := true }) := by
  cases ok with
  | false => simp [main_run]
  | true =>
      have hM : RTE_MAX_ETHPORTS = 32 := rfl
      have hd := detect_ports_loop_spec nd 0 (by decide)
      simp only [Nat.zero_add] at hd
      by_cases hov : RTE_MAX_ETHPORTS ≤ nd
      · have h2 : (detect_ports_loop nd 0).2 = true := by
          rw [hd.1]; simpa using hov
        refine ⟨?_, by simp, ?_, ?_⟩
        · simp only [main_run, Bool.false_eq_true, if_false, h2, if_true,
            reduceIte]
          constructor
          · intro habs
            exact absurd habs (by simp)
          · rintro ⟨-, -, hlt⟩
            rw [hM] at hov hlt
            omega
        · intro _ hz
          rw [hM] at hov
          omega
        · intro _ _
          simp [main_run, h2]
      · have h2 : (detect_ports_loop nd 0).2 = false := by
          rw [hd.1]; simpa using hov
        have h1 : (detect_ports_loop nd 0).1 = nd := hd.2 h2
        by_cases hz : nd = 0
        · subst hz
          refine ⟨?_, by simp, ?_, ?_⟩
          · simp [main_run, h2, h1]
          · intro _ _
            simp [main_run, h2, h1]
          · intro _ hge
            rw [hM] at hge
            omega
        · refine ⟨?_, by simp, ?_, ?_⟩
          · simp only [main_run, Bool.false_eq_true, if_false, h2,
              reduceIte, h1, if_neg hz]
            simp [hz, Nat.one_le_iff_ne_zero, hz]
            rw [hM] at hov ⊢
            omega
          · intro _ hz2
            exact absurd hz2 hz
          · intro _ hge
            exact absurd hge hov

/-- Witness for the exit-code theorem: with EAL init succeeding and zero
devices discovered, the modelled program exits 1 with the EAL cleaned
up and a zero transmitted-packet counter. -/
theorem exit_code_semantics_witness :
    (main_run true 0 [] 1023).exit_code = 1 ∧
    (main_run true 0 [] 1023).transmitted_packet_count = 0 ∧
    (main_run true 0 [] 1023).eal_cleaned_up = true := by
  have h := (exit_code_semantics true 0 [] 1023).2.2.1 rfl rfl
  exact ⟨by rw [h], by rw [h], by rw [h]⟩

/-- Witness: the ownership-reconciliation theorem evaluated at the
initial loop state with the source's 1023-buffer pool. -/
theorem send_packet_ownership_reconciliation_witness :
    (send_packet 1 ⟨1023, 0, 0⟩).1.transmitted_packet_count = 0 + 1 ∧
    (send_packet 0 ⟨1023, 0, 0⟩).1.pool_free = 1023 + 1 :=
  ⟨(send_packet_ownership_reconciliation ⟨1023, 0, 0⟩).1.1,
   (send_packet_ownership_reconciliation ⟨1023, 0, 0⟩).2.1⟩

/-- Witness: the total-length theorem evaluated at a zeroed header. -/
theorem ipv4_total_length_correct_witness :
    be16_at (ipv4_hdr_bytes (set_ipv4_hdr ipv4_hdr_zero)) 2 = 200 :=
  (ipv4_total_length_correct ipv4_hdr_zero).2.1

/-- Witness: the checksum theorem evaluated at a zeroed header. -/
theorem ipv4_checksum_correct_witness :
    internet_checksum (ipv4_hdr_bytes (set_ipv4_hdr ipv4_hdr_zero)) = 0 :=
  (ipv4_checksum_correct ipv4_hdr_zero).2.2.1

/-- Witness: the frame-length theorem evaluated at zeroed headers. -/
theorem frame_length_consistent_witness :
    (build_frame ether_hdr_zero ipv4_hdr_zero udp_hdr_zero).length =
      packet_data_len :=
  (frame_length_consistent ether_hdr_zero ipv4_hdr_zero udp_hdr_zero).1

/-- Witness: the UDP-header theorem evaluated at a zeroed header. -/
theorem udp_header_fields_correct_witness :
    be16_at (udp_hdr_bytes (set_udp_hdr udp_hdr_zero)) 4 = 180 ∧
    (set_udp_hdr udp_hdr_zero).dgram_cksum = 0 :=
  ⟨(udp_header_fields_correct udp_hdr_zero).2.2.2.1,
   (udp_header_fields_correct udp_hdr_zero).2.2.2.2.1⟩

/-- Witness: three consecutive failed acquisitions leave the 1023-buffer
pool count unchanged. -/
theorem alloc_failure_preserves_pool_witness :
    (run_loop (List.replicate 3 IterEvent.allocFail) ⟨1023, 0, 0⟩).1.pool_free
      = 1023 :=
  (alloc_failure_preserves_pool 3 ⟨1023, 0, 0⟩).2.1

/-- Witness: the identification/fragmentation theorem evaluated at a
zeroed header. -/
theorem ipv4_id_and_fragment_nonfragmented_witness :
    (set_ipv4_hdr ipv4_hdr_zero).packet_id = 0 ∧
    be16_at (ipv4_hdr_bytes (set_ipv4_hdr ipv4_hdr_zero)) 6 % 8192 = 0 :=
  ⟨(ipv4_id_and_fragment_nonfragmented ipv4_hdr_zero).1,
   (ipv4_id_and_fragment_nonfragmented ipv4_hdr_zero).2.2.1⟩

/-- Witness: a run of one failed acquisition and one successful transmit
reads the exit flag exactly three times. -/
theorem cancellation_checked_at_boundaries_witness :
    (run_loop [IterEvent.allocFail, IterEvent.txBurst 1]
        ⟨1023, 0, 0⟩).2.count LoopAction.check_exit_flag = 3 :=
  (cancellation_checked_at_boundaries
    [IterEvent.allocFail, IterEvent.txBurst 1]
    ⟨1023, 0, 0⟩ ⟨1023, 0, 0⟩ IterEvent.allocFail 1).1

/-- Witness: the TTL theorem evaluated at a zeroed header. -/
theorem ipv4_ttl_is_64_witness :
    (set_ipv4_hdr ipv4_hdr_zero).time_to_live = 64 :=
  (ipv4_ttl_is_64 ipv4_hdr_zero).1
